import Mathlib

/-!
Shallow embedding of the Stagehand Python client
(`packages/core/examples/stagehand.py`): the wire codec for the
line-delimited event stream, the dispatch loop of `Stagehand._execute`,
the session lifecycle (`init` / `close`), and the `Action` wrapper.
JSON values are modelled by an inductive `Json`; Python dictionaries by
association lists; the Python `None` sentinel used for the pending result
variable is modelled by `Json.null` (a JSON `null` decodes to Python
`None`, so the two are indistinguishable in the source).
-/

namespace Stagehand

/-- JSON values as produced by `json.loads`. Python `None` is `null`. -/
inductive Json where
  | null
  | bool (b : Bool)
  | num (n : Int)
  | str (s : String)
  | arr (elems : List Json)
  | obj (fields : List (String × Json))

/-- First-match lookup in an association list (Python `dict` access;
keys of a parsed JSON object are unique). -/
def lookupField : List (String × Json) → String → Option Json
  | [], _ => none
  | (k, v) :: rest, key => if k = key then some v else lookupField rest key

/-- `d.get(key)`: `None` (here `Option.none`) when the key is absent or
the value is not an object. -/
def Json.get : Json → String → Option Json
  | .obj fields, key => lookupField fields key
  | _, _ => none

/-- `d.get(key, default)`. -/
def Json.getD (j : Json) (key : String) (d : Json) : Json :=
  (j.get key).getD d

/-- `value == "s"` for a Python value that came from JSON: true exactly
when the value is the string `s`. -/
def Json.isStr : Json → String → Bool
  | .str t, s => t == s
  | _, _ => false

/-- `event.get("type") == t`. -/
def typeIs (event : Json) (t : String) : Bool :=
  match event.get "type" with
  | some v => v.isStr t
  | none => false

/-- `event.get("data", {})`. -/
def sysData (event : Json) : Json :=
  event.getD "data" (Json.obj [])

/-- `event_data.get("status") == "finished"`. -/
def statusFinished (eventData : Json) : Bool :=
  match eventData.get "status" with
  | some v => v.isStr "finished"
  | none => false

/-- The errors the client raises, keyed by structural kind.
`notInitialized` and `alreadyInitialized` are the two distinguishable
`StagehandError` raises ("Not initialized. Call init() first." and
"Already initialized. Call close() first."); `apiError` is
`StagehandAPIError` carrying its payload; `connectionError` is
`StagehandConnectionError` carrying its message. -/
inductive ExecErr where
  | notInitialized
  | alreadyInitialized
  | apiError (payload : Json)
  | connectionError (msg : String)

/-- One item delivered to the log sink: the `category`, `message` and
`level` values of a log frame (with the source's defaults applied). -/
structure LogItem where
  category : Json
  message : Json
  level : Json

/-- `level <= self.verbose`. The wire contract makes `level` an integer
0-2; a non-numeric level is outside the contract and is treated as not
emitted. -/
def levelLE (level : Json) (verbose : Int) : Bool :=
  match level with
  | .num n => decide (n ≤ verbose)
  | _ => false

/-- The log branch of the dispatch loop: under `self.verbose > 0`,
read `category` / `message` / `level` with their defaults and print
when `level <= self.verbose`. -/
def logEmit (verbose : Int) (eventData : Json) : List LogItem :=
  if 0 < verbose then
    let category := eventData.getD "category" (Json.str "")
    let message := eventData.getD "message" (Json.str "")
    let level := eventData.getD "level" (Json.num 0)
    if levelLE level verbose then [⟨category, message, level⟩] else []
  else []

/-- Outcome of handling one decoded event inside the loop. -/
inductive StepResult where
  | next (pending : Json)
  | halt (pending : Json)
  | raised (e : ExecErr)

/-- The body of the `async for` loop of `Stagehand._execute`, for one
decoded event: `log` frames may print; `system` frames record a result
(`if "result" in event_data`), else raise on an error payload
(`elif "error" in event_data`), and break when `status == "finished"`. -/
def handleEvent (verbose : Int) (pending : Json) (event : Json) :
    List LogItem × StepResult :=
  let eventData := sysData event
  if typeIs event "log" then
    (logEmit verbose eventData, .next pending)
  else if typeIs event "system" then
    match eventData.get "result" with
    | some v =>
        if statusFinished eventData then ([], .halt v) else ([], .next v)
    | none =>
        match eventData.get "error" with
        | some err => ([], .raised (.apiError err))
        | none =>
            if statusFinished eventData then ([], .halt pending)
            else ([], .next pending)
  else ([], .next pending)

/-- `if result is None: raise StagehandAPIError(...) ; return result`. -/
def finishOutcome : Json → Except ExecErr Json
  | .null => .error (.apiError (.str "No result received from server"))
  | r => .ok r

/-- The dispatch loop over a list of already-decoded events, threading
the `result` variable (initially Python `None`, modelled `Json.null`)
and collecting the log-sink output. -/
def processEvents (verbose : Int) : List Json → Json → List LogItem × Except ExecErr Json
  | [], pending => ([], finishOutcome pending)
  | e :: rest, pending =>
    match handleEvent verbose pending e with
    | (logs, .next p) =>
        let out := processEvents verbose rest p
        (logs ++ out.1, out.2)
    | (logs, .halt p) => (logs, finishOutcome p)
    | (logs, .raised err) => (logs, .error err)

/-- A line of the streamed response body, as its sequence of characters
(a Python `str`). -/
def Line : Type := List Char

/-- `not line.strip()`: the line is empty or whitespace-only. -/
def blankLine (line : Line) : Bool :=
  List.all line Char.isWhitespace

/-- The literal `"data: "` marker every frame line must start with. -/
def dataMarker : List Char := "data: ".data

/-- One line of the stream: skipped (`None`) when blank, when it does not
start with the literal `"data: "` marker, or when the remainder after the
marker fails JSON parsing (`parse` stands for `json.loads`, returning
`none` on `json.JSONDecodeError`); otherwise the parsed JSON event.
This is `line.strip()` / `line.startswith("data: ")` / `line[6:]` of the
source, over the character sequence of the line. -/
def decodeLine (parse : Line → Option Json) (line : Line) : Option Json :=
  if blankLine line || !(dataMarker.isPrefixOf line) then none
  else parse (List.drop 6 line)

/-- The dispatch loop over the raw lines of the response body:
non-frames are skipped with `continue`, decoded frames are handled by
`handleEvent`. -/
def processLines (verbose : Int) (parse : Line → Option Json) :
    List Line → Json → List LogItem × Except ExecErr Json
  | [], pending => ([], finishOutcome pending)
  | line :: rest, pending =>
    match decodeLine parse line with
    | none => processLines verbose parse rest pending
    | some event =>
      match handleEvent verbose pending event with
      | (logs, .next p) =>
          let out := processLines verbose parse rest p
          (logs ++ out.1, out.2)
      | (logs, .halt p) => (logs, finishOutcome p)
      | (logs, .raised err) => (logs, .error err)

/-- The mutable fields of a `Stagehand` client instance that the
lifecycle and dispatch code reads or writes. `session_id` is Python's
`self.session_id : Optional[str]`. -/
structure ClientState where
  server_url : String
  verbose : Int
  session_id : Option String

/-- Python truthiness of `self.session_id`: `None` and `""` are falsy. -/
def truthy : Option String → Bool
  | none => false
  | some s => !(s == "")

/-- What the transport produced for one streamed call, after the request
was sent: a non-2xx HTTP status (`raise_for_status`, with the optionally
readable body text), some other `httpx.HTTPError`, or a 2xx response
whose body is a sequence of lines. -/
inductive Transport where
  | statusError (code : Nat) (body : Option String)
  | transportError (msg : String)
  | stream (lines : List Line)

/-- The message built for a non-2xx response:
`"HTTP {status}"` plus `": {body}"` when the body could be read. -/
def httpErrorMsg (code : Nat) (body : Option String) : String :=
  "HTTP " ++ toString code ++ (match body with | some b => ": " ++ b | none => "")

/-- `Stagehand._execute`: reject when no session is active, classify
HTTP-level and transport-level failures, otherwise run the streamed
event loop over the body lines with the result variable starting at
`None`. The method name and argument payload only shape the request,
never the decode/outcome logic, and the client state is never written. -/
def execute (st : ClientState) (parse : Line → Option Json)
    (_method : String) (_args : Json) (t : Transport) :
    (List LogItem × Except ExecErr Json) × ClientState :=
  if !(truthy st.session_id) then
    (([], .error .notInitialized), st)
  else
    match t with
    | .statusError code body =>
        (([], .error (.apiError (.str (httpErrorMsg code body)))), st)
    | .transportError msg =>
        (([], .error (.connectionError ("Connection error: " ++ msg))), st)
    | .stream lines =>
        (processLines st.verbose parse lines .null, st)

/-- The response to the `sessions/start` request: either some
`httpx.HTTPError` (which includes the `raise_for_status` failure on a
non-2xx status), or the parsed JSON body of a 2xx response. -/
inductive StartResponse where
  | failure (msg : String)
  | success (data : Json)

/-- `data.get("sessionId")`, kept when it is a string (the wire contract
makes `sessionId` a string). -/
def getSessionId (data : Json) : Option String :=
  match data.get "sessionId" with
  | some (.str s) => some s
  | _ => none

/-- `Stagehand.init`: reject when a session is already active; on
transport failure raise `StagehandConnectionError`; otherwise store the
returned `sessionId` and raise `StagehandAPIError` when it is missing or
falsy (the assignment happens before the check, as in the source). -/
def init (st : ClientState) (_options : Json) (resp : StartResponse) :
    Except ExecErr Unit × ClientState :=
  if truthy st.session_id then
    (.error .alreadyInitialized, st)
  else
    match resp with
    | .failure msg =>
        (.error (.connectionError ("Failed to connect to server: " ++ msg)), st)
    | .success data =>
        let sid := getSessionId data
        let st' := { st with session_id := sid }
        if truthy sid then (.ok (), st')
        else (.error (.apiError (.str "Server did not return a sessionId")), st')

/-- `Stagehand.close`: when a session is active, attempt the teardown
call; any exception from it is caught and only warned about, and the
`finally` block clears `session_id` unconditionally. When no session is
active the teardown is skipped. The method never raises. -/
def close (st : ClientState) (teardown : Except String Unit) :
    Except ExecErr ClientState :=
  if truthy st.session_id then
    match teardown with
    | .ok _ => .ok { st with session_id := none }
    | .error _ => .ok { st with session_id := none }
  else .ok st

/-- The `Action` wrapper around a raw action dictionary: the typed
attributes are read from the dictionary, and `_raw` keeps the whole
dictionary. -/
structure Action where
  selector : Option Json
  description : Option Json
  backend_node_id : Option Json
  method : Option Json
  arguments : Json
  raw : List (String × Json)

/-- `Action.__init__(data)`. -/
def Action.ofDict (d : List (String × Json)) : Action :=
  { selector := lookupField d "selector"
    description := lookupField d "description"
    backend_node_id := lookupField d "backendNodeId"
    method := lookupField d "method"
    arguments := (lookupField d "arguments").getD (.arr [])
    raw := d }

/-- `Action.to_dict`: return the stored `_raw` dictionary. -/
def Action.to_dict (a : Action) : List (String × Json) :=
  a.raw

/-! Derived observations on events, used to state the claims. -/

/-- A `system` frame whose status is the terminal `"finished"` value. -/
def isTerminal (e : Json) : Bool :=
  typeIs e "system" && statusFinished (sysData e)

/-- A `system` frame that takes the raising branch of the loop: it has
no `result` key and does have an `error` key. -/
def raisesApi (e : Json) : Bool :=
  typeIs e "system" && ((sysData e).get "result").isNone
    && ((sysData e).get "error").isSome

/-- The update one event applies to the pending-result variable:
a `system` frame with a `result` key overwrites it, everything else
leaves it alone. -/
def recordStep (acc : Json) (e : Json) : Json :=
  if typeIs e "system" then ((sysData e).get "result").getD acc else acc

/-- The pending result left behind by a whole stream of events, starting
from the `None` (`Json.null`) initialization. -/
def lastRecorded (events : List Json) : Json :=
  events.foldl recordStep Json.null

/-- A `log` frame with the given category, message and integer level. -/
def logFrame (category message : String) (level : Int) : Json :=
  Json.obj [("type", Json.str "log"),
            ("data", Json.obj [("category", Json.str category),
                               ("message", Json.str message),
                               ("level", Json.num level)])]

/-! Supporting lemmas. -/

theorem typeIs_eq_some (e : Json) (s : String) (h : typeIs e s = true) :
    e.get "type" = some (Json.str s) := by
  unfold typeIs at h
  cases hg : e.get "type" with
  | none => rw [hg] at h; exact Bool.noConfusion h
  | some v =>
    rw [hg] at h
    cases v <;> simp [Json.isStr] at h
    subst h; rfl

theorem typeIs_log_not_system (e : Json) (h : typeIs e "log" = true) :
    typeIs e "system" = false := by
  unfold typeIs
  rw [typeIs_eq_some e "log" h]
  rfl

theorem handleEvent_snd_next (verbose : Int) (pending : Json) (e : Json)
    (hterm : isTerminal e = false) (herr : raisesApi e = false) :
    (handleEvent verbose pending e).2 = StepResult.next (recordStep pending e) := by
  unfold handleEvent recordStep
  by_cases hlog : typeIs e "log"
  · have hsys : typeIs e "system" = false := typeIs_log_not_system e hlog
    simp [hlog, hsys]
  · by_cases hsys : typeIs e "system"
    · unfold isTerminal at hterm
      unfold raisesApi at herr
      rw [hsys] at hterm herr
      simp only [Bool.true_and] at hterm herr
      cases hres : (sysData e).get "result" with
      | some v => simp [hlog, hsys, hres, hterm]
      | none =>
        cases herr2 : (sysData e).get "error" with
        | some err =>
          rw [hres, herr2] at herr
          exact Bool.noConfusion herr
        | none => simp [hlog, hsys, hres, herr2, hterm]
    · simp [hlog, hsys]

theorem processEvents_snd_quiet (verbose : Int) :
    ∀ (events : List Json) (pending : Json),
      (∀ e ∈ events, isTerminal e = false) →
      (∀ e ∈ events, raisesApi e = false) →
      (processEvents verbose events pending).2 =
        finishOutcome (events.foldl recordStep pending) := by
  intro events
  induction events with
  | nil => intro pending _ _; rfl
  | cons e rest ih =>
    intro pending hterm herr
    have h2 := handleEvent_snd_next verbose pending e
      (hterm e (List.mem_cons_self e rest)) (herr e (List.mem_cons_self e rest))
    rcases hev : handleEvent verbose pending e with ⟨logs, sr⟩
    rw [hev] at h2
    simp only at h2
    subst h2
    have ihr := ih (recordStep pending e)
      (fun x hx => hterm x (List.mem_cons_of_mem e hx))
      (fun x hx => herr x (List.mem_cons_of_mem e hx))
    simp only [processEvents, hev, List.foldl_cons]
    exact ihr

theorem finishOutcome_ne_null (r : Json) (h : r ≠ Json.null) :
    finishOutcome r = Except.ok r := by
  cases r
  case null => exact absurd rfl h
  all_goals rfl

theorem processLines_eq_processEvents (verbose : Int) (parse : Line → Option Json) :
    ∀ (lines : List Line) (pending : Json),
      processLines verbose parse lines pending =
        processEvents verbose (lines.filterMap (decodeLine parse)) pending := by
  intro lines
  induction lines with
  | nil => intro pending; rfl
  | cons line rest ih =>
    intro pending
    cases hdec : decodeLine parse line with
    | none => simp only [processLines, hdec, List.filterMap_cons, ih]
    | some event =>
      simp only [processLines, hdec, List.filterMap_cons]
      rcases hev : handleEvent verbose pending event with ⟨logs, sr⟩
      cases sr with
      | next p => simp only [processEvents, hev, ih]
      | halt p => simp only [processEvents, hev]
      | raised err => simp only [processEvents, hev]

/-! Claims. -/

/-- A synthesized `system` frame carrying a result payload, an error
payload, and the terminal status at once. -/
def bothFrame : Json :=
  Json.obj [("type", Json.str "system"),
            ("data", Json.obj [("status", Json.str "finished"),
                               ("result", Json.num 7),
                               ("error", Json.str "boom")])]

/-- Claim C1, counterexample: on a stream whose single `system` frame
carries both a result payload (`7`) and an error payload (`"boom"`),
the dispatch loop succeeds with the result and does not fail with the
error, so the error path does not take precedence. -/
theorem C1_counterexample :
    (processEvents 1 [bothFrame] Json.null).2 = Except.ok (Json.num 7) ∧
    (processEvents 1 [bothFrame] Json.null).2 ≠
      Except.error (ExecErr.apiError (Json.str "boom")) := by
  constructor
  · rfl
  · intro h
    exact Except.noConfusion h

/-- Claim C1, amended: when a decoded `system` frame carries both a
result payload and an error payload, the result branch takes precedence
(`if "result" in ...` before `elif "error" in ...`): the error is
ignored, the result overwrites the pending result, and the frame
otherwise behaves like a pure result frame — terminating with that
result if its status is the terminal `"finished"` value, continuing
with it pending otherwise. -/
theorem C1_result_branch_precedence (verbose : Int) (pending : Json)
    (rest : List Json) (e : Json) (r err : Json)
    (hsys : typeIs e "system" = true)
    (hres : (sysData e).get "result" = some r)
    (_herr : (sysData e).get "error" = some err) :
    processEvents verbose (e :: rest) pending =
      (if statusFinished (sysData e) then ([], finishOutcome r)
       else processEvents verbose rest r) := by
  have hlog : typeIs e "log" = false := by
    unfold typeIs
    rw [typeIs_eq_some e "system" hsys]
    rfl
  by_cases hfin : statusFinished (sysData e)
  · simp [processEvents, handleEvent, hlog, hsys, hres, hfin]
  · simp [processEvents, handleEvent, hlog, hsys, hres, hfin]

/-- Concrete instance of `C1_result_branch_precedence`. -/
theorem C1_witness :
    processEvents 1 [bothFrame] Json.null =
      (if statusFinished (sysData bothFrame) then ([], finishOutcome (Json.num 7))
       else processEvents 1 [] (Json.num 7)) :=
  C1_result_branch_precedence 1 Json.null [] bothFrame (Json.num 7) (Json.str "boom")
    rfl rfl rfl

/-- Claim C2: when the event stream closes without any terminal
`system` frame (and, necessarily for the stream to reach its end,
without any frame that raises the error path), the dispatch loop fails
with the "No result received from server" `APIError` if the pending
result was never set, and succeeds with the last recorded pending
result otherwise (stream closure acts as implicit termination). The
pending result mirrors the source's `result` variable: Python `None`
(`Json.null`) means unset, so a JSON-`null` result payload leaves it
unset, exactly as in the source. -/
theorem C2_stream_close_outcome (verbose : Int) (events : List Json)
    (hterm : events.all (fun e => !(isTerminal e)) = true)
    (herr : events.all (fun e => !(raisesApi e)) = true) :
    (lastRecorded events = Json.null →
        (processEvents verbose events Json.null).2 =
          Except.error (ExecErr.apiError (Json.str "No result received from server")))
  ∧ (lastRecorded events ≠ Json.null →
        (processEvents verbose events Json.null).2 = Except.ok (lastRecorded events)) := by
  have hterm' : ∀ e ∈ events, isTerminal e = false := by
    intro e he
    simpa using List.all_eq_true.mp hterm e he
  have herr' : ∀ e ∈ events, raisesApi e = false := by
    intro e he
    simpa using List.all_eq_true.mp herr e he
  have hq := processEvents_snd_quiet verbose events Json.null hterm' herr'
  constructor
  · intro h0
    rw [hq]
    rw [show events.foldl recordStep Json.null = lastRecorded events from rfl, h0]
    rfl
  · intro hne
    rw [hq]
    rw [show events.foldl recordStep Json.null = lastRecorded events from rfl]
    exact finishOutcome_ne_null _ hne

/-- A `system` frame carrying only a result payload, no status. -/
def resultOnlyFrame : Json :=
  Json.obj [("type", Json.str "system"),
            ("data", Json.obj [("result", Json.num 1)])]

/-- Concrete instance of `C2_stream_close_outcome`: a stream that closes
right after a result-only `system` frame still succeeds with it. -/
theorem C2_witness :
    (processEvents 0 [resultOnlyFrame] Json.null).2 =
      Except.ok (lastRecorded [resultOnlyFrame]) :=
  (C2_stream_close_outcome 0 [resultOnlyFrame] rfl rfl).2
    (fun hc => Json.noConfusion hc)

/-- Claim C3: inside the dispatch loop, (1) a non-terminal `system`
frame carrying a result payload overwrites whatever pending result was
recorded before, and the loop continues with the new value — the last
result frame before termination wins; (2) a terminal `system` frame
stops reading immediately: the remainder of the stream is ignored;
(3) a `system` frame carrying an error payload (and no result payload)
fails the call with that error even when a pending result was already
recorded. -/
theorem C3_system_frame_semantics (verbose : Int) (pending : Json)
    (rest : List Json) (e : Json) :
    (∀ v : Json, typeIs e "system" = true → (sysData e).get "result" = some v →
        isTerminal e = false →
        processEvents verbose (e :: rest) pending = processEvents verbose rest v)
  ∧ (isTerminal e = true → raisesApi e = false →
        processEvents verbose (e :: rest) pending = processEvents verbose [e] pending)
  ∧ (∀ p : Json, raisesApi e = true →
        (processEvents verbose (e :: rest) p).2 =
          Except.error (ExecErr.apiError (((sysData e).get "error").getD Json.null))) := by
  refine ⟨?_, ?_, ?_⟩
  · intro v hsys hres hterm
    have hlog : typeIs e "log" = false := by
      unfold typeIs
      rw [typeIs_eq_some e "system" hsys]
      rfl
    have hfin : statusFinished (sysData e) = false := by
      unfold isTerminal at hterm
      rw [hsys] at hterm
      simpa using hterm
    simp [processEvents, handleEvent, hlog, hsys, hres, hfin]
  · intro hterm herr
    unfold isTerminal at hterm
    rw [Bool.and_eq_true] at hterm
    obtain ⟨hsys, hfin⟩ := hterm
    have hlog : typeIs e "log" = false := by
      unfold typeIs
      rw [typeIs_eq_some e "system" hsys]
      rfl
    cases hres : (sysData e).get "result" with
    | some v => simp [processEvents, handleEvent, hlog, hsys, hres, hfin]
    | none =>
      have herr2 : (sysData e).get "error" = none := by
        unfold raisesApi at herr
        rw [hsys, hres] at herr
        cases hx : (sysData e).get "error" with
        | none => rfl
        | some u => rw [hx] at herr; simp at herr
      simp [processEvents, handleEvent, hlog, hsys, hres, herr2, hfin]
  · intro p herr
    unfold raisesApi at herr
    rw [Bool.and_eq_true, Bool.and_eq_true] at herr
    obtain ⟨⟨hsys, hisnone⟩, hissome⟩ := herr
    have hres : (sysData e).get "result" = none :=
      Option.isNone_iff_eq_none.mp hisnone
    obtain ⟨u, hu⟩ := Option.isSome_iff_exists.mp hissome
    have hlog : typeIs e "log" = false := by
      unfold typeIs
      rw [typeIs_eq_some e "system" hsys]
      rfl
    simp [processEvents, handleEvent, hlog, hsys, hres, hu]

/-- A `system` frame carrying only a result payload. -/
def plainResultFrame : Json :=
  Json.obj [("type", Json.str "system"),
            ("data", Json.obj [("result", Json.num 5)])]

/-- Concrete instance of `C3_system_frame_semantics` (overwrite part). -/
theorem C3_witness :
    processEvents 0 [plainResultFrame] Json.null = processEvents 0 [] (Json.num 5) :=
  (C3_system_frame_semantics 0 Json.null [] plainResultFrame).1 (Json.num 5) rfl rfl rfl

/-- Claim C4: frame decoding never raises on a non-frame line — a blank
or whitespace-only line, a line not starting with the literal
`"data: "` marker, or a line whose remainder after the marker fails
JSON parsing decodes to not-a-frame (`none`) and is silently skipped:
removing such a line from the body leaves both the emitted logs and the
call outcome unchanged. -/
theorem C4_nonframe_lines_skipped (parse : Line → Option Json) (line : Line)
    (h : blankLine line = true ∨ dataMarker.isPrefixOf line = false ∨
         parse (List.drop 6 line) = none) :
    decodeLine parse line = none ∧
    ∀ (verbose : Int) (pre post : List Line) (pending : Json),
      processLines verbose parse (pre ++ line :: post) pending =
        processLines verbose parse (pre ++ post) pending := by
  have hdec : decodeLine parse line = none := by
    unfold decodeLine
    rcases h with h | h | h
    · simp [h]
    · simp [h]
    · by_cases hc : (blankLine line || !(dataMarker.isPrefixOf line)) = true
      · simp [hc]
      · simp only [Bool.not_eq_true] at hc
        simp [hc, h]
  refine ⟨hdec, ?_⟩
  intro verbose pre post pending
  rw [processLines_eq_processEvents, processLines_eq_processEvents,
      List.filterMap_append, List.filterMap_append, List.filterMap_cons, hdec]

/-- Concrete instance of `C4_nonframe_lines_skipped`: a line whose
payload fails JSON parsing is skipped without affecting the outcome. -/
theorem C4_witness :
    decodeLine (fun _ => none) ("data: x".data) = none ∧
    processLines 1 (fun _ => none) ([] ++ ("data: x".data) :: []) Json.null =
      processLines 1 (fun _ => none) ([] ++ []) Json.null :=
  ⟨(C4_nonframe_lines_skipped (fun _ => none) ("data: x".data) (Or.inr (Or.inr rfl))).1,
   (C4_nonframe_lines_skipped (fun _ => none) ("data: x".data) (Or.inr (Or.inr rfl))).2
     1 [] [] Json.null⟩

/-- Claim C5, counterexample: with verbosity 0 and a log frame of level
0, the level is ≤ the verbosity yet nothing reaches the log sink — the
source prints only under `self.verbose > 0`, so "emitted exactly when
level ≤ verbosity" fails at verbosity 0. -/
theorem C5_counterexample :
    ((0 : Int) ≤ 0) ∧
    (processEvents 0 [logFrame "category" "message" 0] Json.null).1 = [] :=
  ⟨le_refl 0, rfl⟩

/-- Claim C5, amended: a decoded log frame with integer level `L` is
emitted to the log sink exactly when the configured verbosity `V` is
positive and `L ≤ V` (the source gates on `self.verbose > 0` before
comparing levels, so verbosity 0 suppresses every log frame); and log
frames never affect the call outcome or the handling of the rest of
the stream. -/
theorem C5_log_emission (verbose level : Int) (category message : String)
    (events : List Json) (pending : Json) :
    processEvents verbose (logFrame category message level :: events) pending =
      ((if 0 < verbose ∧ level ≤ verbose
          then [⟨Json.str category, Json.str message, Json.num level⟩] else [])
          ++ (processEvents verbose events pending).1,
       (processEvents verbose events pending).2) := by
  by_cases hv : 0 < verbose
  · by_cases hl : level ≤ verbose
    · simp [processEvents, handleEvent, logEmit, levelLE, sysData, typeIs,
            Json.isStr, Json.getD, Json.get, lookupField, logFrame, hv, hl]
    · simp [processEvents, handleEvent, logEmit, levelLE, sysData, typeIs,
            Json.isStr, Json.getD, Json.get, lookupField, logFrame, hv, hl]
  · simp [processEvents, handleEvent, logEmit, levelLE, sysData, typeIs,
          Json.isStr, Json.getD, Json.get, lookupField, logFrame, hv]

/-- Claim C6: every operational call issued while the session identifier
is absent or empty fails with the not-initialized error, for every
method, argument payload and transport behavior — the outcome does not
depend on the transport, so no request is consulted. -/
theorem C6_not_initialized (st : ClientState) (parse : Line → Option Json)
    (method : String) (args : Json) (t : Transport)
    (h : st.session_id = none ∨ st.session_id = some "") :
    execute st parse method args t = (([], Except.error ExecErr.notInitialized), st) := by
  have ht : truthy st.session_id = false := by
    rcases h with h | h <;> rw [h] <;> rfl
  unfold execute
  rw [ht]
  rfl

/-- Concrete instance of `C6_not_initialized`. -/
theorem C6_witness :
    execute ⟨"http://localhost:3000", 0, none⟩ (fun _ => none) "act" Json.null
        (Transport.stream []) =
      (([], Except.error ExecErr.notInitialized), ⟨"http://localhost:3000", 0, none⟩) :=
  C6_not_initialized _ _ _ _ _ (Or.inl rfl)

/-- Claim C7: calling `init` while a session is already active fails
with the already-initialized error and returns the client state — in
particular the session identifier — unchanged, for every option payload
and server response. -/
theorem C7_already_initialized (st : ClientState) (options : Json) (resp : StartResponse)
    (h : truthy st.session_id = true) :
    init st options resp = (Except.error ExecErr.alreadyInitialized, st) := by
  unfold init
  rw [h]
  rfl

/-- Concrete instance of `C7_already_initialized`. -/
theorem C7_witness :
    init ⟨"http://localhost:3000", 0, some "sess1"⟩ Json.null
        (StartResponse.success (Json.obj [("sessionId", Json.str "sess2")])) =
      (Except.error ExecErr.alreadyInitialized, ⟨"http://localhost:3000", 0, some "sess1"⟩) :=
  C7_already_initialized _ _ _ rfl

/-- Claim C8: `close` on an active session never raises — it returns
normally even when the teardown call fails — and the session identifier
is cleared unconditionally once teardown is attempted. -/
theorem C8_close_clears (st : ClientState) (teardown : Except String Unit)
    (h : truthy st.session_id = true) :
    close st teardown = Except.ok { st with session_id := none } := by
  cases teardown <;> (unfold close; rw [h]; rfl)

/-- Concrete instance of `C8_close_clears`: teardown times out, `close`
still returns normally with the identifier cleared. -/
theorem C8_witness :
    close ⟨"http://localhost:3000", 0, some "sess1"⟩ (Except.error "timeout") =
      Except.ok ⟨"http://localhost:3000", 0, none⟩ :=
  C8_close_clears _ _ rfl

/-- Claim C9: a dispatch call never mutates the client state, whatever
the transport produced and whether the call succeeds or fails: the state
(in particular the session identifier) returned by `execute` is exactly
the input state. -/
theorem C9_execute_preserves_state (st : ClientState) (parse : Line → Option Json)
    (method : String) (args : Json) (t : Transport) :
    (execute st parse method args t).2 = st := by
  unfold execute
  by_cases h : truthy st.session_id
  · rw [h]
    cases t <;> rfl
  · rw [Bool.not_eq_true] at h
    rw [h]
    rfl

/-- Claim C10: constructing an `Action` from a dictionary and converting
it back with `to_dict` returns exactly the original dictionary,
including keys not modeled as `Action` attributes — the constructor
stores the raw dictionary and `to_dict` returns it. -/
theorem C10_action_roundtrip (d : List (String × Json)) :
    (Action.ofDict d).to_dict = d := rfl

end Stagehand
